import Mathlib

/-!
Shallow embedding of the VGGNet CIFAR-10 notebook (`VGGNet.ipynb`):
training-data normalization, data augmentation configuration, the layer
stack of the network, the optimizer and fit configuration, the stepped
learning-rate schedule, and the CoreML export configuration.

Exact rational/real arithmetic stands in for the notebook's floating
point; Keras shapes are modelled without the batch dimension (a batch of
one input of shape (32,32,3) yields one output of shape (10), i.e.
(1,10) with the batch axis).
-/

namespace VGG

/-! ### Hyperparameter constants (notebook cell 10) -/

def weight_decay : ℚ := 0.0005

def learning_rate : ℚ := 0.1

def lr_decay : ℚ := 0.000001

def lr_drop : ℕ := 20

def batch_size : ℕ := 128

def epochs : ℕ := 250

/-- Number of classes, `classes = 10` (cell 10; the notebook later
rebinds the name to the label list, modelled below as `classLabels`). -/
def classes : ℕ := 10

/-! ### Learning-rate schedule (notebook cell 9) -/

/-- Cell 9: `def lr_scheduler(epoch): return learning_rate * (0.5 ** (epoch // lr_drop))`.
Here `/` on `ℕ` is floor division, matching Python's `//` on non-negative ints. -/
def lr_scheduler (epoch : ℕ) : ℚ :=
  learning_rate * (0.5 : ℚ) ^ (epoch / lr_drop)

/-! ### Normalization (notebook cell 4)

`normalize` takes the 4-D training and test tensors (samples × height ×
width × channels) and standardizes both with statistics of the training
tensor: `mean = np.mean(X_train, axis=(0,1,2,3))`,
`std = np.std(X_train, axis=(0,1,2,3))`, then
`(X - mean) / (std + 1e-7)` elementwise on each tensor.
A 4-D tensor is modelled as a nested list of reals. -/

abbrev T4 : Type := List (List (List (List ℝ)))

/-- All scalar entries of a 4-D tensor, in row-major order. -/
def flatten4 (X : T4) : List ℝ :=
  X.flatten.flatten.flatten

/-- Elementwise map over a 4-D tensor. -/
def map4 (f : ℝ → ℝ) (X : T4) : T4 :=
  X.map (List.map (List.map (List.map f)))

/-- Entry of a 4-D tensor at position (i, j, k, l), when in range. -/
def get4? (X : T4) (i j k l : ℕ) : Option ℝ :=
  X[i]?.bind fun a => a[j]?.bind fun b => b[k]?.bind fun d => d[l]?

/-- The mean `np.mean(X, axis=(0,1,2,3))`: one scalar, the sum of all
entries divided by the number of entries. -/
noncomputable def mean4 (X : T4) : ℝ :=
  (flatten4 X).sum / ((flatten4 X).length : ℝ)

/-- The standard deviation `np.std(X, axis=(0,1,2,3))` (population
standard deviation, `ddof = 0`): square root of the mean of the squared
deviations. -/
noncomputable def std4 (X : T4) : ℝ :=
  Real.sqrt ((((flatten4 X).map fun x => (x - mean4 X) ^ 2).sum) /
    ((flatten4 X).length : ℝ))

/-- The ε guard of the notebook, `1e-7`. -/
noncomputable def eps : ℝ := 1 / 10 ^ 7

/-- Notebook cell 4:
```
def normalize(X_train,X_test):
    mean = np.mean(X_train,axis=(0,1,2,3))
    std = np.std(X_train, axis=(0,1,2,3))
    X_train = (X_train-mean)/(std+1e-7)
    X_test = (X_test-mean)/(std+1e-7)
    return X_train, X_test
``` -/
noncomputable def normalize (X_train X_test : T4) : T4 × T4 :=
  let mean := mean4 X_train
  let std := std4 X_train
  (map4 (fun x => (x - mean) / (std + eps)) X_train,
   map4 (fun x => (x - mean) / (std + eps)) X_test)

/-! ### Data augmentation configuration (notebook cell 7) -/

/-- The `ImageDataGenerator` constructor arguments that govern
augmentation, with the library's default values. -/
structure ImageDataGenConfig where
  featurewise_center : Bool := false
  samplewise_center : Bool := false
  featurewise_std_normalization : Bool := false
  samplewise_std_normalization : Bool := false
  zca_whitening : Bool := false
  rotation_range : ℚ := 0
  width_shift_range : ℚ := 0
  height_shift_range : ℚ := 0
  shear_range : ℚ := 0
  zoom_range : ℚ := 0
  channel_shift_range : ℚ := 0
  horizontal_flip : Bool := false
  vertical_flip : Bool := false
deriving DecidableEq, Repr

/-- Notebook cell 7: rotation range 15 degrees, width and height shift
range 0.1, horizontal flips on; everything else left at its default. -/
def train_datagen : ImageDataGenConfig :=
  { rotation_range := 15
    width_shift_range := 0.1
    height_shift_range := 0.1
    horizontal_flip := true }

/-- One tuple of uniform draws in [0,1], one per random augmentation
parameter of a single image. -/
structure AugmentDraw where
  u_rot : ℚ
  u_w : ℚ
  u_h : ℚ
  u_flip : ℚ
deriving DecidableEq, Repr

/-- The geometric perturbation applied to one image. -/
structure AugmentTransform where
  angle : ℚ
  dx : ℚ
  dy : ℚ
  flip : Bool
deriving DecidableEq, Repr

/-- Modelled from the spec: the library's per-image random transform for
`ImageDataGenerator` is not part of this repository's source; per the
spec each image receives a rotation angle drawn uniformly from
±`rotation_range` degrees, horizontal and vertical shifts drawn
uniformly from ±`width_shift_range`/`height_shift_range` of the image
width/height, and a Bernoulli(1/2) horizontal mirroring when
`horizontal_flip` is set. Each uniform draw `u ∈ [0,1]` is mapped
affinely onto its range. -/
def randomTransform (cfg : ImageDataGenConfig) (d : AugmentDraw)
    (height width : ℚ) : AugmentTransform :=
  { angle := -cfg.rotation_range + 2 * cfg.rotation_range * d.u_rot
    dx := (-cfg.width_shift_range + 2 * cfg.width_shift_range * d.u_w) * width
    dy := (-cfg.height_shift_range + 2 * cfg.height_shift_range * d.u_h) * height
    flip := cfg.horizontal_flip && decide (d.u_flip < 1 / 2) }

/-! ### The layer stack (notebook cell 11) -/

inductive Activation where
  | relu
  | softmaxAct
  | linear
deriving DecidableEq, Repr

/-- One Keras layer as added by `model.add(...)`. Convolutions record
their filter count, kernel size, activation, padding mode and optional
L2 kernel-regularizer coefficient; unnamed layers carry no name. -/
inductive Layer where
  | conv2d (filters kh kw : ℕ) (act : Activation) (samePadding : Bool)
      (l2 : Option ℚ) (name : String)
  | batchNorm
  | dropout (rate : ℚ)
  | maxPool2d (ph pw : ℕ) (name : String)
  | flattenL (name : String)
  | dense (units : ℕ) (act : Activation) (l2 : Option ℚ) (name : String)
deriving DecidableEq, Repr

/-- The `Sequential` stack of notebook cell 11, in order. -/
def model : List Layer := [
  -- Block 1
  .conv2d 64 3 3 .relu true (some weight_decay) "block1_conv1",
  .batchNorm,
  .dropout 0.3,
  .conv2d 64 3 3 .relu true none "block1_conv2",
  .batchNorm,
  .maxPool2d 2 2 "block1_pool",
  -- Block 2
  .conv2d 128 3 3 .relu true (some weight_decay) "block2_conv1",
  .batchNorm,
  .dropout 0.4,
  .conv2d 128 3 3 .relu true (some weight_decay) "block2_conv2",
  .batchNorm,
  .maxPool2d 2 2 "block2_pool",
  -- Block 3
  .conv2d 256 3 3 .relu true (some weight_decay) "block3_conv1",
  .batchNorm,
  .dropout 0.4,
  .conv2d 256 3 3 .relu true (some weight_decay) "block3_conv2",
  .batchNorm,
  .dropout 0.4,
  .conv2d 256 3 3 .relu true (some weight_decay) "block3_conv3",
  .batchNorm,
  .maxPool2d 2 2 "block3_pool",
  -- Block 4
  .conv2d 512 3 3 .relu true (some weight_decay) "block4_conv1",
  .batchNorm,
  .dropout 0.4,
  .conv2d 512 3 3 .relu true (some weight_decay) "block4_conv2",
  .batchNorm,
  .dropout 0.4,
  .conv2d 512 3 3 .relu true (some weight_decay) "block4_conv3",
  .batchNorm,
  .maxPool2d 2 2 "block4_pool",
  -- Block 5
  .conv2d 512 3 3 .relu true (some weight_decay) "block5_conv1",
  .batchNorm,
  .dropout 0.4,
  .conv2d 512 3 3 .relu true (some weight_decay) "block5_conv2",
  .batchNorm,
  .dropout 0.4,
  .conv2d 512 3 3 .relu true (some weight_decay) "block5_conv3",
  .batchNorm,
  .maxPool2d 2 2 "block5_pool",
  -- Head
  .dropout 0.5,
  .flattenL "flatten",
  .dense 512 .relu (some weight_decay) "fc1",
  .batchNorm,
  .dropout 0.5,
  .dense classes .softmaxAct none "predictions"]

/-! ### Shape semantics of the layers -/

/-- An activation shape: either a 2-D feature map with channels, or a
flat vector (the batch axis is left implicit). -/
inductive Shape where
  | img (h w c : ℕ)
  | flat (n : ℕ)
deriving DecidableEq, Repr

/-- Output shape of one layer on a given input shape.
A convolution with `same` padding and unit stride preserves the spatial
extent and sets the channel count to its filter count; max-pooling with
an `ph × pw` window uses its window as stride and valid padding, giving
`(h - ph) / ph + 1` rows (floor division); batch-norm and dropout are
shape-preserving; flatten multiplies out the axes; dense maps a flat
vector to its unit count. -/
def outShape : Shape → Layer → Option Shape
  | .img h w _, .conv2d f kh kw _ pad _ _ =>
      if pad then some (.img h w f)
      else some (.img (h - kh + 1) (w - kw + 1) f)
  | .flat _, .conv2d .. => none
  | s, .batchNorm => some s
  | s, .dropout _ => some s
  | .img h w c, .maxPool2d ph pw _ =>
      some (.img ((h - ph) / ph + 1) ((w - pw) / pw + 1) c)
  | .flat _, .maxPool2d .. => none
  | .img h w c, .flattenL _ => some (.flat (h * w * c))
  | .flat n, .flattenL _ => some (.flat n)
  | .flat _, .dense u _ _ _ => some (.flat u)
  | .img .., .dense .. => none

/-- Shape after running a prefix of the stack, `none` on a shape error. -/
def shapeAfter (layers : List Layer) (s : Shape) : Option Shape :=
  layers.foldl (fun acc l => acc.bind fun t => outShape t l) (some s)

/-! ### Parameter counting -/

/-- Trainable and non-trainable parameter counts of one layer at a given
input shape, as a pair (trainable, non-trainable). A convolution holds `kh·kw·c_in·filters` kernel weights plus one
bias per filter; batch normalization holds `2c` trainable (scale, shift)
and `2c` non-trainable (moving mean, moving variance) parameters for `c`
normalized features; a dense layer holds `n·u` weights plus `u` biases. -/
def paramsOf : Shape → Layer → ℕ × ℕ
  | .img _ _ c, .conv2d f kh kw _ _ _ _ => (kh * kw * c * f + f, 0)
  | .flat _, .conv2d .. => (0, 0)
  | .img _ _ c, .batchNorm => (2 * c, 2 * c)
  | .flat n, .batchNorm => (2 * n, 2 * n)
  | _, .dropout _ => (0, 0)
  | _, .maxPool2d .. => (0, 0)
  | _, .flattenL _ => (0, 0)
  | .flat n, .dense u _ _ _ => (n * u + u, 0)
  | .img .., .dense .. => (0, 0)

/-- Total (trainable, non-trainable) parameter counts of a stack,
threading the activation shape through the layers. -/
def countParams (layers : List Layer) (s : Shape) : ℕ × ℕ :=
  (layers.foldl
    (fun acc l =>
      match acc with
      | (none, t, n) => (none, t, n)
      | (some sh, t, n) =>
          (outShape sh l, t + (paramsOf sh l).1, n + (paramsOf sh l).2))
    ((some s : Option Shape), 0, 0)).2

/-! ### Helper views of the stack, used to state the regularization
pattern -/

/-- Names of the convolutions that carry an L2 kernel regularizer, in
stack order. -/
def regularizedConvs (layers : List Layer) : List String :=
  layers.filterMap fun
    | .conv2d _ _ _ _ _ (some _) nm => some nm
    | _ => none

/-- Names of all convolutions, in stack order. -/
def convNames (layers : List Layer) : List String :=
  layers.filterMap fun
    | .conv2d _ _ _ _ _ _ nm => some nm
    | _ => none

/-- Holds (as `true`) iff every convolution in the stack is immediately
followed by a batch-normalization layer. -/
def convsFollowedByBN : List Layer → Bool
  | .conv2d _ _ _ _ _ _ _ :: rest =>
      match rest with
      | .batchNorm :: _ => convsFollowedByBN rest
      | _ => false
  | _ :: rest => convsFollowedByBN rest
  | [] => true

/-- The dropout rate placed right after the batch-normalization that
follows the convolution of the given name, if any. -/
def dropoutAfterConv (layers : List Layer) (nm : String) : Option ℚ :=
  match layers with
  | .conv2d _ _ _ _ _ _ nm' :: .batchNorm :: .dropout r :: rest =>
      if nm' = nm then some r else dropoutAfterConv (.batchNorm :: .dropout r :: rest) nm
  | .conv2d _ _ _ _ _ _ nm' :: rest =>
      if nm' = nm then none else dropoutAfterConv rest nm
  | _ :: rest => dropoutAfterConv rest nm
  | [] => none

/-- The L2 coefficient of the convolution of the given name:
`none` if no such convolution, `some none` if it has no regularizer,
`some (some c)` if it is L2-regularized with coefficient `c`. -/
def l2OfConv (layers : List Layer) (nm : String) : Option (Option ℚ) :=
  match layers with
  | .conv2d _ _ _ _ _ l2 nm' :: rest =>
      if nm' = nm then some l2 else l2OfConv rest nm
  | _ :: rest => l2OfConv rest nm
  | [] => none

/-- Holds (as `true`) iff every convolution in the stack uses `same`
padding. -/
def allConvsSamePadding (layers : List Layer) : Bool :=
  layers.all fun
    | .conv2d _ _ _ _ pad _ _ => pad
    | _ => true

/-- The per-block regularization pattern asserted by the spec's table:
an L2 kernel regularizer on the first convolution of each block only,
batch normalization after every convolution, dropout 0.3 after the
first convolution of block 1, dropout 0.4 after the first convolution
of block 2 and after each of the first two convolutions of blocks 3-5. -/
def claimedRegularizationPattern : Prop :=
  regularizedConvs model =
    ["block1_conv1", "block2_conv1", "block3_conv1", "block4_conv1",
     "block5_conv1"] ∧
  convsFollowedByBN model = true ∧
  dropoutAfterConv model "block1_conv1" = some 0.3 ∧
  dropoutAfterConv model "block1_conv2" = none ∧
  dropoutAfterConv model "block2_conv1" = some 0.4 ∧
  dropoutAfterConv model "block2_conv2" = none ∧
  dropoutAfterConv model "block3_conv1" = some 0.4 ∧
  dropoutAfterConv model "block3_conv2" = some 0.4 ∧
  dropoutAfterConv model "block3_conv3" = none ∧
  dropoutAfterConv model "block4_conv1" = some 0.4 ∧
  dropoutAfterConv model "block4_conv2" = some 0.4 ∧
  dropoutAfterConv model "block4_conv3" = none ∧
  dropoutAfterConv model "block5_conv1" = some 0.4 ∧
  dropoutAfterConv model "block5_conv2" = some 0.4 ∧
  dropoutAfterConv model "block5_conv3" = none

/-! ### Softmax (final `predictions` layer) -/

/-- Softmax over an `n`-vector of scores: exponentiate and normalize by
the total. The `predictions` layer applies this with `n = 10`. -/
noncomputable def softmax {n : ℕ} (x : Fin n → ℝ) : Fin n → ℝ :=
  fun i => Real.exp (x i) / ∑ j, Real.exp (x j)

/-! ### Optimizer, compile and fit configuration (notebook cells 11, 13) -/

structure SGDConfig where
  lr : ℚ
  decay : ℚ
  momentum : ℚ
  nesterov : Bool
deriving DecidableEq, Repr

/-- Cell 11: `optimizers.SGD(lr=learning_rate, decay=lr_decay, momentum=0.9, nesterov=True)`. -/
def sgd : SGDConfig :=
  { lr := learning_rate
    decay := lr_decay
    momentum := 0.9
    nesterov := true }

/-- What `fit_generator` receives as validation data: the raw
(normalized) evaluation arrays, or an augmenting generator. -/
inductive ValidationArg where
  | arrays
  | generator (cfg : ImageDataGenConfig)
deriving DecidableEq, Repr

structure FitGeneratorCall where
  gen : ImageDataGenConfig
  steps_per_epoch : ℕ
  numEpochs : ℕ
  validation : ValidationArg
deriving DecidableEq, Repr

/-- Size of the CIFAR-10 training split (`len(x_train)`, printed as
50000 in notebook cell 6). -/
def trainSize : ℕ := 50000

/-- Notebook cell 13:
`model.fit_generator(train_datagen.flow(x_train, y_train, batch_size=batch_size),
 steps_per_epoch=len(x_train) // batch_size, epochs=epochs,
 validation_data=(x_test, y_test), callbacks=[reduce_lr])`;
the validation data is the plain (unaugmented) test arrays. -/
def fitCall : FitGeneratorCall :=
  { gen := train_datagen
    steps_per_epoch := trainSize / batch_size
    numEpochs := epochs
    validation := .arrays }

/-! ### CoreML export (notebook cell 20) -/

/-- The label list of notebook cell 20, verbatim, trailing spaces
included. -/
def classLabels : List String :=
  ["airplane", "automobile", "bird ", "cat ", "deer ", "dog ", "frog ",
   "horse ", "ship ", "truck"]

/-- The canonical CIFAR-10 class names, in dataset order. -/
def cleanLabels : List String :=
  ["airplane", "automobile", "bird", "cat", "deer", "dog", "frog",
   "horse", "ship", "truck"]

/-- Strip trailing space characters from a string. -/
def stripTrailing (s : String) : String :=
  ⟨(s.data.reverse.dropWhile (· = ' ')).reverse⟩

structure CoreMLExport where
  input_names : List String
  image_input_names : String
  class_labels : List String
deriving DecidableEq, Repr

/-- Notebook cell 20: `coremltools.converters.keras.convert(model,
input_names=['image'], image_input_names='image', class_labels=[...])`. -/
def coreml_export : CoreMLExport :=
  { input_names := ["image"]
    image_input_names := "image"
    class_labels := classLabels }

/-! ## Helper lemmas -/

/-- Reading an entry of an elementwise-mapped 4-D tensor. -/
theorem get4?_map4 (f : ℝ → ℝ) (X : T4) (i j k l : ℕ) :
    get4? (map4 f X) i j k l = (get4? X i j k l).map f := by
  simp only [get4?, map4, List.getElem?_map]
  cases X[i]? with
  | none => rfl
  | some a =>
    simp only [Option.map_some', Option.some_bind, List.getElem?_map]
    cases a[j]? with
    | none => rfl
    | some b =>
      simp only [Option.map_some', Option.some_bind, List.getElem?_map]
      cases b[k]? with
      | none => rfl
      | some d =>
        simp only [Option.map_some', Option.some_bind, List.getElem?_map]

/-- Flattening an elementwise-mapped 4-D tensor maps the flat entries. -/
theorem flatten4_map4 (f : ℝ → ℝ) (X : T4) :
    flatten4 (map4 f X) = (flatten4 X).map f := by
  simp only [flatten4, map4, ← List.map_flatten]

/-! ## Claim theorems -/

/-- C1: the stepped learning-rate schedule is
`lr(epoch) = base_rate * 0.5^(epoch // 20)` with base rate `0.1` and
0-indexed epochs: for every epoch, `lr_scheduler epoch = 0.1 * 0.5 ^ (epoch / 20)`;
in particular `lr 0 = 0.1`, `lr 19 = 0.1`, `lr 20 = 0.05`, `lr 40 = 0.025`;
and the schedule steps only at multiples of 20: on the whole window of
epochs `20*k, ..., 20*k + 19` the rate is the constant `0.1 * 0.5^k`
(halving exactly once per 20-epoch window). -/
theorem lr_schedule_spec :
    (∀ epoch : ℕ, lr_scheduler epoch = 0.1 * (0.5 : ℚ) ^ (epoch / 20)) ∧
    lr_scheduler 0 = 0.1 ∧
    lr_scheduler 19 = 0.1 ∧
    lr_scheduler 20 = 0.05 ∧
    lr_scheduler 40 = 0.025 ∧
    (∀ k r : ℕ, lr_scheduler (20 * k + r % 20) = 0.1 * (0.5 : ℚ) ^ k) := by
  refine ⟨fun _ => rfl, by norm_num [lr_scheduler, learning_rate, lr_drop],
    by norm_num [lr_scheduler, learning_rate, lr_drop],
    by norm_num [lr_scheduler, learning_rate, lr_drop],
    by norm_num [lr_scheduler, learning_rate, lr_drop], fun k r => ?_⟩
  have h : (20 * k + r % 20) / lr_drop = k := by
    simp only [lr_drop]; omega
  rw [lr_scheduler, h, learning_rate]

/-- C2: `normalize` computes the mean and the standard deviation from
the training tensor only and returns both tensors transformed
elementwise by the same affine map: the entry at any position of either
returned tensor is the corresponding original entry transformed as
`(x - mean4 train) / (std4 train + 1e-7)`. -/
theorem normalize_elementwise_spec (tr te : T4) (i j k l : ℕ) :
    get4? (normalize tr te).1 i j k l
      = (get4? tr i j k l).map (fun x => (x - mean4 tr) / (std4 tr + eps)) ∧
    get4? (normalize tr te).2 i j k l
      = (get4? te i j k l).map (fun x => (x - mean4 tr) / (std4 tr + eps)) :=
  ⟨get4?_map4 _ tr i j k l, get4?_map4 _ te i j k l⟩

/-- C3: the normalization of evaluation data leaks no evaluation
statistics and is deterministic: replacing the evaluation tensor leaves
the returned training tensor unchanged, both evaluation outputs are the
respective inputs mapped by the one transform fitted on the training
tensor alone, and a repeated run on equal inputs returns equal
outputs. -/
theorem normalize_no_leak (tr te1 te2 trb teb : T4)
    (hb1 : trb = tr) (hb2 : teb = te1) :
    (normalize tr te1).1 = (normalize tr te2).1 ∧
    (normalize tr te1).2 = map4 (fun x => (x - mean4 tr) / (std4 tr + eps)) te1 ∧
    (normalize tr te2).2 = map4 (fun x => (x - mean4 tr) / (std4 tr + eps)) te2 ∧
    normalize trb teb = normalize tr te1 := by
  subst hb1; subst hb2
  exact ⟨rfl, rfl, rfl, rfl⟩

/-- Witness for C3 at concrete one-entry tensors. -/
theorem normalize_no_leak_witness :
    (normalize [[[[(1 : ℝ)]]]] [[[[(2 : ℝ)]]]]).1
        = (normalize [[[[(1 : ℝ)]]]] [[[[(3 : ℝ)]]]]).1 ∧
    (normalize [[[[(1 : ℝ)]]]] [[[[(2 : ℝ)]]]]).2
        = map4 (fun x => (x - mean4 [[[[(1 : ℝ)]]]]) / (std4 [[[[(1 : ℝ)]]]] + eps))
            [[[[(2 : ℝ)]]]] ∧
    (normalize [[[[(1 : ℝ)]]]] [[[[(3 : ℝ)]]]]).2
        = map4 (fun x => (x - mean4 [[[[(1 : ℝ)]]]]) / (std4 [[[[(1 : ℝ)]]]] + eps))
            [[[[(3 : ℝ)]]]] ∧
    normalize [[[[(1 : ℝ)]]]] [[[[(2 : ℝ)]]]]
        = normalize [[[[(1 : ℝ)]]]] [[[[(2 : ℝ)]]]] :=
  normalize_no_leak [[[[(1 : ℝ)]]]] [[[[(2 : ℝ)]]]] [[[[(3 : ℝ)]]]]
    [[[[(1 : ℝ)]]]] [[[[(2 : ℝ)]]]] rfl rfl

/-- C4: under the augmentation configuration of the notebook, every
augmented training image receives a rotation angle drawn uniformly from
±15 degrees (the uniform draw is mapped affinely onto that range), a
horizontal and vertical translation each drawn uniformly from ±10% of
the image dimension, and a Bernoulli(1/2) horizontal mirroring; every
other augmentation option of the generator is at its inert default, and
the validation data passed to the fit call is the plain evaluation
arrays, not an augmenting generator. -/
theorem augmentation_spec (d : AugmentDraw)
    (h : 0 ≤ d.u_rot ∧ d.u_rot ≤ 1 ∧ 0 ≤ d.u_w ∧ d.u_w ≤ 1 ∧
         0 ≤ d.u_h ∧ d.u_h ≤ 1) :
    (randomTransform train_datagen d 32 32).angle = -15 + 30 * d.u_rot ∧
    |(randomTransform train_datagen d 32 32).angle| ≤ 15 ∧
    |(randomTransform train_datagen d 32 32).dx| ≤ (0.1 : ℚ) * 32 ∧
    |(randomTransform train_datagen d 32 32).dy| ≤ (0.1 : ℚ) * 32 ∧
    ((randomTransform train_datagen d 32 32).flip = true ↔ d.u_flip < 1 / 2) ∧
    train_datagen.vertical_flip = false ∧
    train_datagen.shear_range = 0 ∧
    train_datagen.zoom_range = 0 ∧
    train_datagen.channel_shift_range = 0 ∧
    train_datagen.zca_whitening = false ∧
    train_datagen.featurewise_center = false ∧
    train_datagen.samplewise_center = false ∧
    train_datagen.featurewise_std_normalization = false ∧
    train_datagen.samplewise_std_normalization = false ∧
    fitCall.validation = .arrays := by
  obtain ⟨h1, h2, h3, h4, h5, h6⟩ := h
  refine ⟨by norm_num [randomTransform, train_datagen], ?_, ?_, ?_, ?_,
    rfl, rfl, rfl, rfl, rfl, rfl, rfl, rfl, rfl, rfl⟩
  · rw [abs_le]
    constructor <;> · simp only [randomTransform, train_datagen]; nlinarith
  · rw [abs_le]
    constructor <;> · simp only [randomTransform, train_datagen]; nlinarith
  · rw [abs_le]
    constructor <;> · simp only [randomTransform, train_datagen]; nlinarith
  · simp [randomTransform, train_datagen]

/-- Witness for C4 at the concrete draw (1/2, 1/2, 1/2, 1/4). -/
theorem augmentation_spec_witness :
    ((0 : ℚ) ≤ 1 / 2 ∧ (1 : ℚ) / 2 ≤ 1 ∧ (0 : ℚ) ≤ 1 / 2 ∧ (1 : ℚ) / 2 ≤ 1 ∧
      (0 : ℚ) ≤ 1 / 2 ∧ (1 : ℚ) / 2 ≤ 1) ∧
    ((randomTransform train_datagen ⟨1 / 2, 1 / 2, 1 / 2, 1 / 4⟩ 32 32).angle
        = -15 + 30 * (1 / 2 : ℚ) ∧
      |(randomTransform train_datagen ⟨1 / 2, 1 / 2, 1 / 2, 1 / 4⟩ 32 32).angle| ≤ 15 ∧
      |(randomTransform train_datagen ⟨1 / 2, 1 / 2, 1 / 2, 1 / 4⟩ 32 32).dx|
        ≤ (0.1 : ℚ) * 32 ∧
      |(randomTransform train_datagen ⟨1 / 2, 1 / 2, 1 / 2, 1 / 4⟩ 32 32).dy|
        ≤ (0.1 : ℚ) * 32 ∧
      ((randomTransform train_datagen ⟨1 / 2, 1 / 2, 1 / 2, 1 / 4⟩ 32 32).flip = true
        ↔ (1 / 4 : ℚ) < 1 / 2) ∧
      train_datagen.vertical_flip = false ∧
      train_datagen.shear_range = 0 ∧
      train_datagen.zoom_range = 0 ∧
      train_datagen.channel_shift_range = 0 ∧
      train_datagen.zca_whitening = false ∧
      train_datagen.featurewise_center = false ∧
      train_datagen.samplewise_center = false ∧
      train_datagen.featurewise_std_normalization = false ∧
      train_datagen.samplewise_std_normalization = false ∧
      fitCall.validation = .arrays) :=
  ⟨by norm_num, augmentation_spec ⟨1 / 2, 1 / 2, 1 / 2, 1 / 4⟩ (by norm_num)⟩

/-- C5: on an input of shape (32,32,3) (a batch of one), the layer
stack is shape-correct and produces a flat 10-vector: every convolution
uses same-padding (preserving spatial size between poolings), the five
2×2 stride-2 max-poolings take the spatial extent through
32→16→8→4→2→1, flatten yields a 512-vector, the final layer is the
10-unit softmax dense layer, and softmax output always sums to 1. -/
theorem forward_shape_softmax_spec :
    shapeAfter model (.img 32 32 3) = some (.flat 10) ∧
    allConvsSamePadding model = true ∧
    shapeAfter (model.take 6) (.img 32 32 3) = some (.img 16 16 64) ∧
    shapeAfter (model.take 12) (.img 32 32 3) = some (.img 8 8 128) ∧
    shapeAfter (model.take 21) (.img 32 32 3) = some (.img 4 4 256) ∧
    shapeAfter (model.take 30) (.img 32 32 3) = some (.img 2 2 512) ∧
    shapeAfter (model.take 39) (.img 32 32 3) = some (.img 1 1 512) ∧
    shapeAfter (model.take 41) (.img 32 32 3) = some (.flat 512) ∧
    model.getLast? = some (.dense 10 .softmaxAct none "predictions") ∧
    (∀ x : Fin 10 → ℝ, ∑ i, softmax x i = 1) := by
  refine ⟨by decide, by decide, by decide, by decide, by decide, by decide,
    by decide, by decide, by decide, fun x => ?_⟩
  have hpos : (0 : ℝ) < ∑ j, Real.exp (x j) :=
    Finset.sum_pos (fun j _ => Real.exp_pos (x j)) Finset.univ_nonempty
  simp only [softmax]
  rw [← Finset.sum_div, div_self (ne_of_gt hpos)]

/-- C6: the architecture has exactly 14,991,946 trainable and 9,472
non-trainable parameters (the batch-normalization moving statistics),
15,001,418 in total, computed by integer arithmetic from the layer
shapes. -/
theorem parameter_count_spec :
    countParams model (.img 32 32 3) = (14991946, 9472) ∧
    (countParams model (.img 32 32 3)).1 + (countParams model (.img 32 32 3)).2
      = 15001418 :=
  ⟨by decide, by decide⟩

/-- C7 counterexample: the claimed pattern "L2 weight decay on the
first convolution only, in every block" is false for this stack: the
second convolution of block 2 also carries the L2 regularizer (as do
all convolutions of blocks 3-5), so the list of regularized
convolutions is not the list of first convolutions. -/
theorem regularization_claim_false :
    l2OfConv model "block2_conv2" = some (some weight_decay) ∧
    ¬ claimedRegularizationPattern :=
  ⟨rfl, fun hc => absurd hc.1 (by decide)⟩

/-- C7 amended: in the layer stack, the L2 kernel regularizer with
coefficient 5e-4 is applied to every convolution except the second
convolution of block 1 (`block1_conv2`, the only unregularized
convolution); batch normalization follows every convolution; and
dropout is placed (after the batch normalization) following the first
convolution in blocks 1-2 (rate 0.3 in block 1, 0.4 in block 2) and
following each of the first two convolutions in blocks 3-5 (rate 0.4),
and nowhere else among the convolutions. -/
theorem regularization_pattern_actual :
    regularizedConvs model =
      ["block1_conv1", "block2_conv1", "block2_conv2",
       "block3_conv1", "block3_conv2", "block3_conv3",
       "block4_conv1", "block4_conv2", "block4_conv3",
       "block5_conv1", "block5_conv2", "block5_conv3"] ∧
    l2OfConv model "block1_conv2" = some none ∧
    weight_decay = 5 / 10000 ∧
    convsFollowedByBN model = true ∧
    dropoutAfterConv model "block1_conv1" = some 0.3 ∧
    dropoutAfterConv model "block1_conv2" = none ∧
    dropoutAfterConv model "block2_conv1" = some 0.4 ∧
    dropoutAfterConv model "block2_conv2" = none ∧
    dropoutAfterConv model "block3_conv1" = some 0.4 ∧
    dropoutAfterConv model "block3_conv2" = some 0.4 ∧
    dropoutAfterConv model "block3_conv3" = none ∧
    dropoutAfterConv model "block4_conv1" = some 0.4 ∧
    dropoutAfterConv model "block4_conv2" = some 0.4 ∧
    dropoutAfterConv model "block4_conv3" = none ∧
    dropoutAfterConv model "block5_conv1" = some 0.4 ∧
    dropoutAfterConv model "block5_conv2" = some 0.4 ∧
    dropoutAfterConv model "block5_conv3" = none :=
  ⟨by decide, rfl, by norm_num [weight_decay], by decide,
    rfl, rfl, rfl, rfl, rfl, rfl, rfl, rfl, rfl, rfl, rfl, rfl, rfl⟩

/-- C8: the training loop uses SGD with momentum 0.9, Nesterov
acceleration, initial learning rate 0.1 and per-step decay 1e-6; batch
size 128; each epoch runs `floor(train_size / 128)` augmented batches,
which is 390 for the 50000-image training split; the budget is 250
epochs; and validation is computed on the plain evaluation arrays. -/
theorem training_config_spec :
    sgd.momentum = 9 / 10 ∧
    sgd.nesterov = true ∧
    sgd.lr = 1 / 10 ∧
    sgd.decay = 1 / 1000000 ∧
    batch_size = 128 ∧
    fitCall.steps_per_epoch = trainSize / batch_size ∧
    trainSize = 50000 ∧
    fitCall.steps_per_epoch = 390 ∧
    fitCall.numEpochs = 250 ∧
    fitCall.gen = train_datagen ∧
    fitCall.validation = .arrays :=
  ⟨by norm_num [sgd], rfl, by norm_num [sgd, learning_rate],
    by norm_num [sgd, lr_decay], rfl, rfl, rfl, by decide, rfl, rfl, rfl⟩

/-- C9: the export step embeds exactly ten ordered class-label strings
which, stripped of trailing whitespace, are the CIFAR-10 class names
(airplane, automobile, bird, cat, deer, dog, frog, horse, ship, truck)
in that order; exactly the seven labels at indices 2 through 8 carry a
single trailing space while `airplane`, `automobile` and `truck` carry
none; and the exported artifact's class-label list is the supplied list
in its supplied order. -/
theorem export_labels_spec :
    coreml_export.class_labels = classLabels ∧
    classLabels.length = 10 ∧
    classLabels.map stripTrailing = cleanLabels ∧
    ((List.range 10).all fun i =>
      classLabels.getD i "" ==
        if 2 ≤ i ∧ i ≤ 8 then cleanLabels.getD i "" ++ " "
        else cleanLabels.getD i "") = true ∧
    coreml_export.input_names = ["image"] ∧
    coreml_export.image_input_names = "image" :=
  ⟨rfl, by decide, by decide, by decide, rfl, rfl⟩

/-- C10: `normalize` reduces over all four axes at once, producing one
scalar mean (the sum of all training entries over their count) and one
scalar standard deviation; consequently the whole training and
evaluation tensors — all positions and all channels — are transformed
by that single scalar affine map. -/
theorem normalize_scalar_stats_spec (tr te : T4) :
    mean4 tr = (flatten4 tr).sum / ((flatten4 tr).length : ℝ) ∧
    std4 tr = Real.sqrt ((((flatten4 tr).map fun x => (x - mean4 tr) ^ 2).sum) /
      ((flatten4 tr).length : ℝ)) ∧
    flatten4 ((normalize tr te).1)
      = (flatten4 tr).map (fun x => (x - mean4 tr) / (std4 tr + eps)) ∧
    flatten4 ((normalize tr te).2)
      = (flatten4 te).map (fun x => (x - mean4 tr) / (std4 tr + eps)) :=
  ⟨rfl, rfl, flatten4_map4 _ tr, flatten4_map4 _ te⟩

end VGG
